import Mathlib

/-!
Shallow embedding of the TalentScout hiring-assistant application (app.py),
a single-script candidate-screening wizard: candidate intake form, external
question generation, one-answer-at-a-time interview loop, and a JSON file
record store keyed by candidate email.

Modelling conventions:
* Python strings are sequences of characters; `lower`, `strip`, `split("\n")`
  and the `in` substring test are modelled structurally over `List Char`.
* The three external services (the language model, the translation service,
  the sentiment scorer) are black boxes, passed in as oracle parameters:
  the language model as `LlmOracle` (prompt to raw response text), the
  translator as `TranslateOracle` (`none` models a raised exception), the
  sentiment scorer as `PolarityOracle` (only the sign of the polarity is
  ever inspected by the code).
* Streamlit session state is the record `SessionState`; each script rerun
  performs one of the handler transitions, collected in the `Step` relation.
* The JSON record store is an association list from email to record; the
  backing file is `Option String` (`none` when the file does not exist) and
  `json.load` is an oracle `String → Option Store` (`none` models a parse
  exception).
-/

namespace TalentScout

/-! ### Python string primitives -/

/-- Lowercase a string character by character, modelling Python `str.lower`
(app.py line 84: `stack_lower = stack.lower()`). -/
def pyLower (s : String) : String := String.mk (s.toList.map Char.toLower)

/-- Drop whitespace from both ends of a character list. -/
def trimChars (cs : List Char) : List Char :=
  ((cs.dropWhile Char.isWhitespace).reverse.dropWhile Char.isWhitespace).reverse

/-- Python `str.strip()` (app.py lines 94 and 151). -/
def pyStrip (s : String) : String := String.mk (trimChars s.toList)

/-- Split a character list at every occurrence of the character `c`,
keeping empty segments, as Python `str.split` with an explicit separator
does. -/
def splitOnChar (c : Char) : List Char → List (List Char)
  | [] => [[]]
  | h :: t =>
    if h = c then [] :: splitOnChar c t
    else
      match splitOnChar c t with
      | [] => [[h]]
      | g :: gs => (h :: g) :: gs

/-- Python `response.content.split("\n")` (app.py line 94). -/
def splitLines (s : String) : List String :=
  (splitOnChar (Char.ofNat 10) s.toList).map (fun cs => String.mk cs)

/-- Substring containment on character lists: true when `pat` occurs
contiguously inside the first argument. -/
def containsSub : List Char → List Char → Bool
  | [], pat => pat.isEmpty
  | h :: t, pat => List.isPrefixOf pat (h :: t) || containsSub t pat

/-- The Python substring test `pat in s` (app.py line 85). -/
def strContains (s pat : String) : Bool := containsSub s.toList pat.toList

/-! ### External service oracles -/

/-- The translation service: `translator.translate(text, dest).text`.
The result is `none` when the call raises (app.py lines 64-68). -/
def TranslateOracle : Type := String → String → Option String

/-- The language model: `llm.invoke(prompt).content` (app.py line 93). -/
def LlmOracle : Type := String → String

/-- The sentiment scorer: only the sign of
`TextBlob(text).sentiment.polarity` is inspected (app.py lines 72-79),
so the oracle returns an integer whose sign carries the polarity. -/
def PolarityOracle : Type := String → Int

/-! ### Leaf functions of app.py -/

/-- app.py lines 61-68, `translate_text`: passthrough when the target
language is the base language `"en"`; on a raised translation exception the
original text is returned unchanged. -/
def translate_text (tr : TranslateOracle) (text : String) (target_lang : String) : String :=
  if target_lang = "en" then text
  else
    match tr text target_lang with
    | some translated => translated
    | none => text

/-- app.py lines 71-79, `analyze_sentiment`. -/
def analyze_sentiment (pol : PolarityOracle) (text : String) : String :=
  if pol text > 0 then "🙂 Positive"
  else if pol text < 0 then "☹️ Negative"
  else "😐 Neutral"

/-- app.py line 83: the fixed keyword allow-list. -/
def valid_tech_keywords : List String :=
  ["python", "java", "c++", "tensorflow", "react", "node.js", "pandas", "sql"]

/-- app.py lines 82-85, `validate_tech_stack`: true iff the lowercased
input contains at least one keyword as a substring. -/
def validate_tech_stack (stack : String) : Bool :=
  valid_tech_keywords.any (fun tech => strContains (pyLower stack) tech)

/-- app.py line 92: the prompt sent to the language model. -/
def questionPrompt (tech_stack : String) : String :=
  "Generate 5 interview questions for a candidate skilled in " ++ tech_stack ++ "."

/-- app.py line 94: `[q.strip() for q in response.content.split("\n") if q.strip()]` —
split the raw response on line breaks, strip each line, keep non-empty lines. -/
def parseQuestions (content : String) : List String :=
  ((splitLines content).map pyStrip).filter (fun q => q ≠ "")

/-- app.py lines 88-95, `generate_questions`. -/
def generate_questions (llm : LlmOracle) (tr : TranslateOracle)
    (preferred_language : String) (tech_stack : String) : List String :=
  if validate_tech_stack tech_stack = false then
    [translate_text tr "Please enter a valid tech stack!" preferred_language]
  else
    let questions := parseQuestions (llm (questionPrompt tech_stack))
    if questions = [] then
      [translate_text tr "Unable to generate questions." preferred_language]
    else questions.take 5

/-! ### Data model -/

/-- The `candidate_info` dictionary built at app.py lines 115-123. -/
structure CandidateInfo where
  name : String
  email : String
  phone : String
  experience : Int
  position : String
  location : String
  tech_stack : String
deriving DecidableEq

/-- One entry of `st.session_state.conversation` (app.py lines 157-161). -/
structure AnswerRecord where
  question : String
  answer : String
  sentiment : String
deriving DecidableEq

/-- One value of the persisted mapping (app.py lines 169-173). -/
structure CandidateRecord where
  info : CandidateInfo
  interview : List AnswerRecord
  completed_date : String
deriving DecidableEq

/-- The persisted mapping from candidate email to record, in insertion
order, as a Python dict loaded from `candidate_data.json`. -/
abbrev Store : Type := List (String × CandidateRecord)

/-- Python dict assignment `d[k] = v` on the association-list model:
replace the entry holding key `k` in place, or append a fresh entry. -/
def dictSet : Store → String → CandidateRecord → Store
  | [], k, v => [(k, v)]
  | (k', v') :: t, k, v =>
    if k' = k then (k, v) :: t else (k', v') :: dictSet t k v

/-- app.py lines 167-174 at the store level: `candidate_data[candidate_id] = record`
with `candidate_id = record.info.email`, followed by `save_data`. -/
def upsert (store : Store) (r : CandidateRecord) : Store :=
  dictSet store r.info.email r

/-- Error raised when the backing file exists but cannot be parsed. -/
inductive StoreError where
  | storeUnavailable
deriving DecidableEq

/-- app.py lines 23-27, `load_data`: when the backing file does not exist
(`file = none`) the empty mapping is returned; when it exists, `json.load`
either yields the stored mapping or raises, and the exception propagates
to the caller (modelled as `Except.error`). -/
def load_data (jsonParse : String → Option Store) (file : Option String) :
    Except StoreError Store :=
  match file with
  | some content =>
    match jsonParse content with
    | some data => Except.ok data
    | none => Except.error StoreError.storeUnavailable
  | none => Except.ok []

/-! ### Session state and handlers -/

/-- The Streamlit session state fields initialized at app.py lines 40-53.
`candidate_info` starts as the empty dict, modelled as `none`. -/
structure SessionState where
  conversation : List AnswerRecord
  question_index : Nat
  questions : List String
  candidate_info : Option CandidateInfo
  preferred_language : String
  interview_started : Bool
  current_answer : String
deriving DecidableEq

/-- The session state after first-run initialization (app.py lines 40-53,
with the default language selection of line 56). -/
def initState : SessionState :=
  { conversation := []
    question_index := 0
    questions := []
    candidate_info := none
    preferred_language := "en"
    interview_started := false
    current_answer := "" }

/-- The language codes of `lang_options` (app.py line 56). -/
def langCodes : List String := ["en", "te", "hi", "ta"]

/-- The raw values of the intake form widgets (app.py lines 101-107). -/
structure CandidateForm where
  full_name : String
  email : String
  phone : String
  experience : Int
  position : String
  location : String
  tech_stack : String
deriving DecidableEq

/-- Streamlit `st.number_input` with `min_value`/`max_value` (app.py
line 104): the widget only ever yields a value inside the closed interval,
modelled as clamping the raw value. -/
def number_input (min_value max_value value : Int) : Int :=
  max min_value (min max_value value)

/-- The `candidate_info` dict built from the form at app.py lines 115-123;
the experience field carries the widget bounds of line 104
(`min_value=0, max_value=50`). -/
def mkCandidateInfo (form : CandidateForm) : CandidateInfo :=
  { name := form.full_name
    email := form.email
    phone := form.phone
    experience := number_input 0 50 form.experience
    position := form.position
    location := form.location
    tech_stack := form.tech_stack }

/-- app.py lines 111-130, the intake submit handler: when any of the
required fields name/email/phone/tech-stack is empty (Python falsy) only a
warning is shown and the state is unchanged; otherwise the profile is
stored, questions are generated, and the interview starts. -/
def intakeSubmit (llm : LlmOracle) (tr : TranslateOracle)
    (st : SessionState) (form : CandidateForm) : SessionState :=
  if form.full_name = "" ∨ form.email = "" ∨ form.phone = "" ∨ form.tech_stack = "" then
    st
  else
    { st with
      candidate_info := some (mkCandidateInfo form)
      questions := generate_questions llm tr st.preferred_language form.tech_stack
      question_index := 0
      conversation := []
      interview_started := true
      current_answer := "" }

/-- Outcome signalled by the submit-answer handler: a warning retry
prompt on an empty answer (app.py line 152), acceptance otherwise. -/
inductive SubmitOutcome where
  | accepted
  | validationError
deriving DecidableEq

/-- app.py lines 151-152: which outcome the submit-answer handler signals. -/
def submitOutcome (st : SessionState) : SubmitOutcome :=
  if pyStrip st.current_answer = "" then SubmitOutcome.validationError
  else SubmitOutcome.accepted

/-- app.py lines 150-164, the submit-answer handler: a whitespace-only
answer leaves the state unchanged; otherwise the answer is translated to
the base language, scored, appended to the conversation together with the
current question, and the question index advances. The enclosing branch
(line 136) guarantees `question_index < questions.length` at the call. -/
def submitAnswer (tr : TranslateOracle) (pol : PolarityOracle)
    (st : SessionState) : SessionState :=
  if pyStrip st.current_answer = "" then st
  else
    let translated_answer := translate_text tr st.current_answer "en"
    { st with
      conversation := st.conversation ++
        [{ question := st.questions.getD st.question_index ""
           answer := translated_answer
           sentiment := analyze_sentiment pol translated_answer }]
      question_index := st.question_index + 1
      current_answer := "" }

/-- app.py lines 186-193, the restart handler shown on the completion
screen: clears every session field except the preferred language. -/
def resetState (st : SessionState) : SessionState :=
  { st with
    interview_started := false
    conversation := []
    questions := []
    question_index := 0
    candidate_info := none
    current_answer := "" }

/-- The record written for the finished session (app.py lines 169-173). -/
def completionRecord (info : CandidateInfo) (st : SessionState) : CandidateRecord :=
  { info := info
    interview := st.conversation
    completed_date := "March 16, 2025" }

/-- app.py lines 165-174, the completion branch: the loaded store gets
the entry `candidate_data[email] = record` and is saved back. Reading the
email from an empty `candidate_info` dict would raise a `KeyError`,
modelled as `none`. -/
def completionSave (st : SessionState) (store : Store) : Option Store :=
  match st.candidate_info with
  | some info => some (dictSet store info.email (completionRecord info st))
  | none => none

/-! ### The session phases and the step relation -/

/-- The three phases of the wizard. -/
inductive Phase where
  | INTAKE
  | INTERVIEWING
  | COMPLETE
deriving DecidableEq

/-- The phase the script dispatches to on a rerun: the intake form renders
when the interview has not started or no questions exist (app.py lines 98
and 133); with the interview started and questions present, line 136
selects the question screen when `index < len(questions)` and the
completion branch otherwise. -/
def phase (st : SessionState) : Phase :=
  if st.interview_started = true ∧ st.questions ≠ [] then
    if st.question_index < st.questions.length then Phase.INTERVIEWING
    else Phase.COMPLETE
  else Phase.INTAKE

/-- One user-driven transition of the session state, one per rerun:
selecting a display language (line 57), submitting the intake form
(line 111, only rendered while the interview has not started), typing into
the answer box (line 143) or submitting it (line 150, both only rendered
on the question screen), and restarting (line 186, only rendered on the
completion screen). -/
inductive Step (llm : LlmOracle) (tr : TranslateOracle) (pol : PolarityOracle) :
    SessionState → SessionState → Prop where
  | selectLanguage (st : SessionState) (l : String) (hl : l ∈ langCodes) :
      Step llm tr pol st { st with preferred_language := l }
  | intake (st : SessionState) (form : CandidateForm)
      (h : st.interview_started = false) :
      Step llm tr pol st (intakeSubmit llm tr st form)
  | setAnswer (st : SessionState) (a : String)
      (h : st.interview_started = true)
      (h2 : st.question_index < st.questions.length) :
      Step llm tr pol st { st with current_answer := a }
  | submit (st : SessionState)
      (h : st.interview_started = true)
      (h2 : st.question_index < st.questions.length) :
      Step llm tr pol st (submitAnswer tr pol st)
  | restart (st : SessionState)
      (h : st.interview_started = true)
      (hq : st.questions ≠ [])
      (h2 : ¬ st.question_index < st.questions.length) :
      Step llm tr pol st (resetState st)

/-- States reachable from the freshly initialized session. -/
def Reachable (llm : LlmOracle) (tr : TranslateOracle) (pol : PolarityOracle)
    (st : SessionState) : Prop :=
  Relation.ReflTransGen (Step llm tr pol) initState st

/-- The inductive invariant of the session state: the conversation length
tracks the question index, the index never passes the question count, the
interview-started flag coincides with question availability, and any
stored profile has its experience inside the widget bounds. -/
def SessionInv (st : SessionState) : Prop :=
  st.conversation.length = st.question_index ∧
  st.question_index ≤ st.questions.length ∧
  (st.interview_started = true ↔ st.questions ≠ []) ∧
  (∀ info, st.candidate_info = some info → 0 ≤ info.experience ∧ info.experience ≤ 50)

/-! ### Helper lemmas -/

theorem take_five_ne_nil {l : List String} (h : l ≠ []) : l.take 5 ≠ [] := by
  simp [List.take_eq_nil_iff, h]

theorem generate_questions_ne_nil (llm : LlmOracle) (tr : TranslateOracle)
    (lang ts : String) : generate_questions llm tr lang ts ≠ [] := by
  unfold generate_questions
  split
  · simp
  · dsimp only
    split
    · simp
    · exact take_five_ne_nil (by assumption)

theorem sessionInv_init : SessionInv initState :=
  ⟨rfl, by simp [initState], by simp [initState], by simp [initState]⟩

theorem sessionInv_step {llm : LlmOracle} {tr : TranslateOracle} {pol : PolarityOracle}
    {st st' : SessionState}
    (hst : SessionInv st) (h : Step llm tr pol st st') : SessionInv st' := by
  obtain ⟨h1, h2, h3, h4⟩ := hst
  cases h with
  | selectLanguage l hl => exact ⟨h1, h2, h3, h4⟩
  | intake form hns =>
    unfold intakeSubmit
    split
    · exact ⟨h1, h2, h3, h4⟩
    · refine ⟨rfl, Nat.zero_le _, ?_, ?_⟩
      · exact iff_of_true rfl (generate_questions_ne_nil llm tr st.preferred_language form.tech_stack)
      · intro info hinfo
        cases hinfo
        simp only [mkCandidateInfo, number_input]
        omega
  | setAnswer a ha hi => exact ⟨h1, h2, h3, h4⟩
  | submit ha hi =>
    unfold submitAnswer
    split
    · exact ⟨h1, h2, h3, h4⟩
    · refine ⟨?_, ?_, h3, h4⟩
      · dsimp only
        simp [h1]
      · dsimp only
        omega
  | restart ha hq hi =>
    exact ⟨rfl, Nat.zero_le _, by simp [resetState], by simp [resetState]⟩

theorem reachable_sessionInv {llm : LlmOracle} {tr : TranslateOracle} {pol : PolarityOracle}
    {st : SessionState} (h : Reachable llm tr pol st) : SessionInv st := by
  unfold Reachable at h
  induction h with
  | refl => exact sessionInv_init
  | tail hab hbc ih => exact sessionInv_step ih hbc

theorem phase_complete_iff_raw (st : SessionState) :
    phase st = Phase.COMPLETE ↔
      (st.interview_started = true ∧ st.questions ≠ [] ∧
        ¬ st.question_index < st.questions.length) := by
  unfold phase
  split
  · rename_i hc
    split
    · rename_i hlt
      constructor
      · intro h
        exact absurd h (by decide)
      · intro h
        exact absurd hlt h.2.2
    · rename_i hlt
      exact iff_of_true rfl ⟨hc.1, hc.2, hlt⟩
  · rename_i hc
    constructor
    · intro h
      exact absurd h (by decide)
    · intro h
      exact absurd ⟨h.1, h.2.1⟩ hc

/-! ### Concrete oracles and a concrete run, used by the witnesses -/

/-- A concrete language model whose response parses to one question. -/
def llm0 : LlmOracle := fun _ => "Q1. Explain list comprehensions."

/-- A concrete translator that always raises. -/
def tr0 : TranslateOracle := fun _ _ => none

/-- A concrete sentiment scorer returning neutral polarity. -/
def pol0 : PolarityOracle := fun _ => 0

/-- A concrete filled intake form. -/
def form0 : CandidateForm :=
  { full_name := "Alice"
    email := "a@x.com"
    phone := "123"
    experience := 3
    position := "Engineer"
    location := "Hyderabad"
    tech_stack := "Python, SQL" }

/-- The session right after a successful intake submission. -/
def st1 : SessionState := intakeSubmit llm0 tr0 initState form0

/-- The session after typing an answer into the answer box. -/
def st2 : SessionState := { st1 with current_answer := "I love Python" }

/-- The session after submitting that answer (its one question answered). -/
def st3 : SessionState := submitAnswer tr0 pol0 st2

theorem reachable_st1 : Reachable llm0 tr0 pol0 st1 :=
  Relation.ReflTransGen.tail Relation.ReflTransGen.refl
    (Step.intake initState form0 rfl)

theorem reachable_st2 : Reachable llm0 tr0 pol0 st2 :=
  Relation.ReflTransGen.tail reachable_st1
    (Step.setAnswer st1 "I love Python" (by decide) (by decide))

theorem reachable_st3 : Reachable llm0 tr0 pol0 st3 :=
  Relation.ReflTransGen.tail reachable_st2
    (Step.submit st2 (by decide) (by decide))

/-! ### Claim theorems -/

/-- C1: in every reachable session state — after initialization, after every
answer submission, and after every reset — the number of accumulated answer
records equals the current question index, and the question index never
exceeds the number of questions. -/
theorem conversation_length_invariant (llm : LlmOracle) (tr : TranslateOracle)
    (pol : PolarityOracle) (st : SessionState) (h : Reachable llm tr pol st) :
    st.conversation.length = st.question_index ∧
    st.question_index ≤ st.questions.length :=
  ⟨(reachable_sessionInv h).1, (reachable_sessionInv h).2.1⟩

/-- Witness for C1, instantiated at the freshly initialized session. -/
theorem conversation_length_invariant_witness :
    initState.conversation.length = initState.question_index ∧
    initState.question_index ≤ initState.questions.length :=
  conversation_length_invariant llm0 tr0 pol0 initState Relation.ReflTransGen.refl

/-- C2: for every reachable session state, the completion branch is selected
iff the question index equals the question count and at least one question
exists; and from a COMPLETE state every transition either stays COMPLETE
without touching the conversation (no further answer can be appended) or is
the explicit restart producing the fresh reset session. -/
theorem complete_phase_characterization (llm : LlmOracle) (tr : TranslateOracle)
    (pol : PolarityOracle) (st st' : SessionState) (h : Reachable llm tr pol st) :
    (phase st = Phase.COMPLETE ↔
      (st.question_index = st.questions.length ∧ 0 < st.questions.length)) ∧
    (phase st = Phase.COMPLETE → Step llm tr pol st st' →
      (phase st' = Phase.COMPLETE ∧ st'.conversation = st.conversation) ∨
      st' = resetState st) := by
  obtain ⟨i1, i2, i3, i4⟩ := reachable_sessionInv h
  constructor
  · rw [phase_complete_iff_raw]
    constructor
    · rintro ⟨hs, hq, hlt⟩
      have hpos : 0 < st.questions.length := List.length_pos.mpr hq
      exact ⟨by omega, hpos⟩
    · rintro ⟨heq, hpos⟩
      have hq : st.questions ≠ [] := List.ne_nil_of_length_pos hpos
      exact ⟨i3.mpr hq, hq, by omega⟩
  · intro hc hstep
    obtain ⟨hs, hq, hlt⟩ := (phase_complete_iff_raw st).mp hc
    cases hstep with
    | selectLanguage l hl => exact Or.inl ⟨hc, rfl⟩
    | intake form hns =>
      rw [hs] at hns
      exact absurd hns (by decide)
    | setAnswer a ha hi => exact absurd hi hlt
    | submit ha hi => exact absurd hi hlt
    | restart ha hq2 hi => exact Or.inr rfl

/-- Witness for C2, instantiated at a concrete completed run of one
question and one answer, with the restart transition as target state. -/
theorem complete_phase_characterization_witness :
    (phase st3 = Phase.COMPLETE ↔
      (st3.question_index = st3.questions.length ∧ 0 < st3.questions.length)) ∧
    (phase st3 = Phase.COMPLETE → Step llm0 tr0 pol0 st3 (resetState st3) →
      (phase (resetState st3) = Phase.COMPLETE ∧
        (resetState st3).conversation = st3.conversation) ∨
      resetState st3 = resetState st3) :=
  complete_phase_characterization llm0 tr0 pol0 st3 (resetState st3) reachable_st3

/-- C3: submitting an answer that is empty after stripping leaves the whole
session state unchanged for every translation and sentiment oracle (so no
external call can influence the result, and index and conversation are
untouched), and the handler signals the validation-error retry prompt. -/
theorem submitAnswer_empty_noop (tr : TranslateOracle) (pol : PolarityOracle)
    (st : SessionState) (h : pyStrip st.current_answer = "") :
    submitAnswer tr pol st = st ∧
    submitOutcome st = SubmitOutcome.validationError := by
  constructor
  · unfold submitAnswer
    rw [if_pos h]
  · unfold submitOutcome
    rw [if_pos h]

/-- Witness for C3 at a whitespace-only answer. -/
theorem submitAnswer_empty_noop_witness :
    submitAnswer tr0 pol0 { initState with current_answer := "   " }
      = { initState with current_answer := "   " } ∧
    submitOutcome { initState with current_answer := "   " }
      = SubmitOutcome.validationError :=
  submitAnswer_empty_noop tr0 pol0 { initState with current_answer := "   " } (by decide)

/-- C4: under a valid tech stack, the generated list is exactly the parse
of the language-model response to the fixed prompt — split on line breaks,
stripped, blanks discarded, truncated to the first 5 non-empty lines — so
it always has between 1 and 5 entries, and a response with zero usable
lines yields the single-element localized fallback message. -/
theorem generate_questions_valid_spec (llm : LlmOracle) (tr : TranslateOracle)
    (lang ts : String) (hv : validate_tech_stack ts = true) :
    generate_questions llm tr lang ts =
      (if parseQuestions (llm (questionPrompt ts)) = [] then
        [translate_text tr "Unable to generate questions." lang]
      else (parseQuestions (llm (questionPrompt ts))).take 5) ∧
    1 ≤ (generate_questions llm tr lang ts).length ∧
    (generate_questions llm tr lang ts).length ≤ 5 := by
  have hne : ¬ validate_tech_stack ts = false := by simp [hv]
  refine ⟨?_, ?_, ?_⟩
  · unfold generate_questions
    rw [if_neg hne]
  · unfold generate_questions
    rw [if_neg hne]
    dsimp only
    split
    · simp
    · rename_i hq
      have := List.length_pos.mpr hq
      rw [List.length_take]
      omega
  · unfold generate_questions
    rw [if_neg hne]
    dsimp only
    split
    · simp
    · rw [List.length_take]
      omega

/-- Witness for C4 at the concrete one-line language-model response. -/
theorem generate_questions_valid_spec_witness :
    generate_questions llm0 tr0 "en" "Python, SQL" =
      (if parseQuestions (llm0 (questionPrompt "Python, SQL")) = [] then
        [translate_text tr0 "Unable to generate questions." "en"]
      else (parseQuestions (llm0 (questionPrompt "Python, SQL"))).take 5) ∧
    1 ≤ (generate_questions llm0 tr0 "en" "Python, SQL").length ∧
    (generate_questions llm0 tr0 "en" "Python, SQL").length ≤ 5 :=
  generate_questions_valid_spec llm0 tr0 "en" "Python, SQL" (by decide)

/-- Number of entries of the store that carry the key `k`. -/
def countKey (store : Store) (k : String) : Nat :=
  (store.filter (fun p => decide (p.1 = k))).length

theorem dictSet_idem (m : Store) (k : String) (v : CandidateRecord) :
    dictSet (dictSet m k v) k v = dictSet m k v := by
  induction m with
  | nil => simp [dictSet]
  | cons p t ih =>
    obtain ⟨k', v'⟩ := p
    by_cases hk : k' = k
    · simp [dictSet, hk]
    · simp [dictSet, hk, ih]

theorem countKey_eq_zero {m : Store} {k : String} (h : ¬ k ∈ m.map Prod.fst) :
    countKey m k = 0 := by
  induction m with
  | nil => rfl
  | cons p t ih =>
    simp only [List.map_cons, List.mem_cons, not_or] at h
    have hp : (decide (p.1 = k)) = false := by
      simp only [decide_eq_false_iff_not]
      exact fun hh => h.1 hh.symm
    unfold countKey at ih ⊢
    rw [List.filter_cons, hp]
    simp only [Bool.false_eq_true, if_false]
    exact ih h.2

theorem countKey_dictSet (m : Store) (k : String) (v : CandidateRecord)
    (h : (m.map Prod.fst).Nodup) : countKey (dictSet m k v) k = 1 := by
  induction m with
  | nil => simp [dictSet, countKey]
  | cons p t ih =>
    obtain ⟨k', v'⟩ := p
    simp only [List.map_cons, List.nodup_cons] at h
    by_cases hk : k' = k
    · subst hk
      have h0 : countKey t k' = 0 := countKey_eq_zero h.1
      unfold countKey at h0 ⊢
      simp [dictSet, List.filter_cons, h0]
    · have ht := ih h.2
      unfold countKey at ht ⊢
      simp [dictSet, hk, List.filter_cons, ht]

/-- C5: upserting the same record twice, over any prior store with unique
keys (as a Python dict always has), yields exactly the store of a single
upsert, and that store holds exactly one entry under the record's email. -/
theorem upsert_idempotent (store : Store) (r : CandidateRecord)
    (h : (store.map Prod.fst).Nodup) :
    upsert (upsert store r) r = upsert store r ∧
    countKey (upsert store r) r.info.email = 1 :=
  ⟨dictSet_idem store r.info.email r, countKey_dictSet store r.info.email r h⟩

/-- A concrete persisted record for the C5 witness. -/
def rec0 : CandidateRecord :=
  { info := mkCandidateInfo form0
    interview := []
    completed_date := "March 16, 2025" }

/-- Witness for C5 over a store already holding an unrelated entry. -/
theorem upsert_idempotent_witness :
    upsert (upsert [("b@y.com", rec0)] rec0) rec0 = upsert [("b@y.com", rec0)] rec0 ∧
    countKey (upsert [("b@y.com", rec0)] rec0) rec0.info.email = 1 :=
  upsert_idempotent [("b@y.com", rec0)] rec0 (by simp)

/-- C6: the tech-stack validator — a pure, total function — returns true
exactly when the lowercased input contains at least one keyword of the
fixed allow-list as a substring; concretely it rejects "I cook pasta" and
accepts "I use Python and React". -/
theorem validate_tech_stack_spec (s : String) :
    (validate_tech_stack s = true ↔
      ∃ tech ∈ valid_tech_keywords, strContains (pyLower s) tech = true) ∧
    validate_tech_stack "I cook pasta" = false ∧
    validate_tech_stack "I use Python and React" = true := by
  refine ⟨?_, by decide, by decide⟩
  unfold validate_tech_stack
  exact List.any_eq_true

/-- Witness for C6 instantiated at the accepted example string. -/
theorem validate_tech_stack_spec_witness :
    (validate_tech_stack "I use Python and React" = true ↔
      ∃ tech ∈ valid_tech_keywords,
        strContains (pyLower "I use Python and React") tech = true) ∧
    validate_tech_stack "I cook pasta" = false ∧
    validate_tech_stack "I use Python and React" = true :=
  validate_tech_stack_spec "I use Python and React"

/-- C7: loading distinguishes absence from corruption: a missing backing
file yields the empty mapping rather than an error, a present file whose
parse raises yields the store-unavailable error (and only then), and a
present parseable file yields its contents. -/
theorem load_data_spec (jsonParse : String → Option Store) (content : String) :
    load_data jsonParse none = Except.ok [] ∧
    (load_data jsonParse (some content) =
      match jsonParse content with
      | some data => Except.ok data
      | none => Except.error StoreError.storeUnavailable) ∧
    (load_data jsonParse (some content) = Except.error StoreError.storeUnavailable
      ↔ jsonParse content = none) := by
  refine ⟨rfl, rfl, ?_⟩
  have heq : load_data jsonParse (some content) =
      match jsonParse content with
      | some data => Except.ok data
      | none => Except.error StoreError.storeUnavailable := rfl
  rw [heq]
  cases hp : jsonParse content with
  | some data => simp
  | none => simp

/-- Witness for C7 at an always-failing parser, modelling a corrupt file. -/
theorem load_data_spec_witness :
    load_data (fun _ => (none : Option Store)) none = Except.ok [] ∧
    (load_data (fun _ => (none : Option Store)) (some "corrupt") =
      match (fun _ => (none : Option Store)) "corrupt" with
      | some data => Except.ok data
      | none => Except.error StoreError.storeUnavailable) ∧
    (load_data (fun _ => (none : Option Store)) (some "corrupt")
        = Except.error StoreError.storeUnavailable
      ↔ (fun _ => (none : Option Store)) "corrupt" = none) :=
  load_data_spec (fun _ => none) "corrupt"

/-- C8: translation is the identity when the target is the base language
"en" for every translator oracle whatsoever — `tr'` is unconstrained, so
in particular an always-succeeding external service cannot influence the
result, the call never being consulted — and it degrades to the original
text whenever the external call raises. -/
theorem translate_text_spec (tr tr' : TranslateOracle) (text lang : String)
    (hfail : tr text lang = none) :
    translate_text tr' text "en" = text ∧ translate_text tr text lang = text := by
  constructor
  · rfl
  · unfold translate_text
    split
    · rfl
    · rw [hfail]

/-- A translator that always succeeds with a fixed different output. -/
def tr1 : TranslateOracle := fun _ _ => some "translated"

/-- Witness for C8: the passthrough conjunct is exercised at the
always-succeeding translator `tr1` (whose output differs from the input),
the degrade conjunct at the always-raising translator `tr0`. -/
theorem translate_text_spec_witness :
    translate_text tr1 "Hello" "en" = "Hello" ∧
    translate_text tr0 "Hello" "te" = "Hello" :=
  translate_text_spec tr0 tr1 "Hello" "te" rfl

/-- C9: when tech-stack validation fails but the required intake fields are
filled, the session still enters the interview phase with the single
sentinel message as its only question, reaches COMPLETE after one
non-empty answer, and the completion branch persists exactly one entry
holding that single answer record. -/
theorem invalid_stack_interview (llm : LlmOracle) (tr : TranslateOracle)
    (pol : PolarityOracle) (st : SessionState) (form : CandidateForm) (a : String)
    (hv : validate_tech_stack form.tech_stack = false)
    (hn : ¬ form.full_name = "") (he : ¬ form.email = "") (hp : ¬ form.phone = "")
    (ht : ¬ form.tech_stack = "") (ha : ¬ pyStrip a = "") :
    (intakeSubmit llm tr st form).questions =
      [translate_text tr "Please enter a valid tech stack!" st.preferred_language] ∧
    phase (intakeSubmit llm tr st form) = Phase.INTERVIEWING ∧
    phase (submitAnswer tr pol { intakeSubmit llm tr st form with current_answer := a })
      = Phase.COMPLETE ∧
    (submitAnswer tr pol
        { intakeSubmit llm tr st form with current_answer := a }).conversation.length = 1 ∧
    (∃ store', completionSave
        (submitAnswer tr pol { intakeSubmit llm tr st form with current_answer := a }) []
          = some store' ∧
      countKey store' form.email = 1) := by
  have hcond : ¬ (form.full_name = "" ∨ form.email = "" ∨ form.phone = ""
      ∨ form.tech_stack = "") := by
    simp [hn, he, hp, ht]
  have hq : generate_questions llm tr st.preferred_language form.tech_stack =
      [translate_text tr "Please enter a valid tech stack!" st.preferred_language] := by
    unfold generate_questions
    rw [if_pos hv]
  have hst1 : intakeSubmit llm tr st form =
      { st with
        candidate_info := some (mkCandidateInfo form)
        questions := [translate_text tr "Please enter a valid tech stack!" st.preferred_language]
        question_index := 0
        conversation := []
        interview_started := true
        current_answer := "" } := by
    unfold intakeSubmit
    rw [if_neg hcond, hq]
  refine ⟨?_, ?_, ?_, ?_, ?_⟩
  · rw [hst1]
  · rw [hst1]
    simp [phase]
  · rw [hst1]
    unfold submitAnswer
    dsimp only
    rw [if_neg ha]
    simp [phase]
  · rw [hst1]
    unfold submitAnswer
    dsimp only
    rw [if_neg ha]
    simp
  · rw [hst1]
    unfold submitAnswer
    dsimp only
    rw [if_neg ha]
    refine ⟨_, rfl, ?_⟩
    simp [completionSave, mkCandidateInfo, dictSet, countKey]

/-- The concrete intake form with a tech stack that fails validation. -/
def form1 : CandidateForm :=
  { full_name := "Bob"
    email := "b@y.com"
    phone := "456"
    experience := 1
    position := "Chef"
    location := "Chennai"
    tech_stack := "I like cooking" }

/-- Witness for C9 at the concrete invalid tech stack "I like cooking". -/
theorem invalid_stack_interview_witness :
    (intakeSubmit llm0 tr0 initState form1).questions =
      [translate_text tr0 "Please enter a valid tech stack!" initState.preferred_language] ∧
    phase (intakeSubmit llm0 tr0 initState form1) = Phase.INTERVIEWING ∧
    phase (submitAnswer tr0 pol0
      { intakeSubmit llm0 tr0 initState form1 with current_answer := "My answer" })
      = Phase.COMPLETE ∧
    (submitAnswer tr0 pol0
      { intakeSubmit llm0 tr0 initState form1 with
        current_answer := "My answer" }).conversation.length = 1 ∧
    (∃ store', completionSave
        (submitAnswer tr0 pol0
          { intakeSubmit llm0 tr0 initState form1 with current_answer := "My answer" }) []
          = some store' ∧
      countKey store' form1.email = 1) :=
  invalid_stack_interview llm0 tr0 pol0 initState form1 "My answer"
    (by decide) (by decide) (by decide) (by decide) (by decide) (by decide)

/-- C10: every candidate profile held by a reachable session — and hence
the profile embedded in every persisted candidate record, which is copied
from it — has its years-of-experience between 0 and 50, the bounds of the
intake form's number widget. -/
theorem experience_within_widget_bounds (llm : LlmOracle) (tr : TranslateOracle)
    (pol : PolarityOracle) (st : SessionState) (info : CandidateInfo)
    (h : Reachable llm tr pol st) (hi : st.candidate_info = some info) :
    0 ≤ info.experience ∧ info.experience ≤ 50 :=
  (reachable_sessionInv h).2.2.2 info hi

/-- Witness for C10 at the concrete post-intake session. -/
theorem experience_within_widget_bounds_witness :
    0 ≤ (mkCandidateInfo form0).experience ∧ (mkCandidateInfo form0).experience ≤ 50 :=
  experience_within_widget_bounds llm0 tr0 pol0 st1 (mkCandidateInfo form0)
    reachable_st1 (by decide)

end TalentScout
